import Mathlib

/-!
Verification development for the order status workflow and material-ordering
safety engine of the ogposwithalerts repository.

The embedding models, from the source:
  - the MaterialOrderingService (checkDuplicateOrders, verifyManagementAuthorization,
    processMaterialOrder, checkSimilarMaterials, checkVendorOrderLimits,
    extractMaterialsFromNotes, calculateMaterialSimilarity, logMaterialOrder)
    in server/services (material ordering service);
  - the two order-update HTTP handlers (the general PATCH order handler and the
    dedicated PATCH order status handler) in the routes file;
  - the storage layer (getOrder, updateOrder, createStatusHistory) as the
    external Order Store collaborator.

State is passed explicitly through a Store record.  The Order Store is an
external collaborator; transient per-order persistence failures (a rejected
updateOrder promise, caught by the per-order try/catch in processMaterialOrder
and by the route handlers' catch blocks) are modelled by the failingIds field,
and a failing audit-history query (a rejected select over materialOrderHistory,
caught by checkDuplicateOrders' try/catch) by the historyReadFails flag.
Timestamps are integers counted in hours, so the 24-hour lookback window is
now - 24.
-/

namespace OGPOS

/-- Risk classification of a proposed material order batch. -/
inductive RiskLevel where
  | LOW
  | MEDIUM
  | HIGH
  | CRITICAL
deriving DecidableEq, Repr

/-- A vendor and item pair extracted from an order's free-text notes
(the material signature). -/
structure MaterialSig where
  vendor : String
  item : String
deriving DecidableEq, Repr

/-- The shape of the JSON snapshot stored in an audit record's orderDetails
column, as read back by the detector: the materials field defaults to the
empty list when absent, and the vendor field to none (read as the string
Unknown).  The timestamp, userId and wasOverridden keys that logMaterialOrder
also serialises are not read anywhere, so they are not modelled. -/
structure OrderDetailsJson where
  materials : List MaterialSig := []
  vendor : Option String := none
deriving DecidableEq, Repr

/-- A row of the materialOrderHistory table (a MaterialOrderAuditRecord). -/
structure AuditRecord where
  id : String
  orderId : String
  orderedBy : String
  orderedAt : Int
  wasOverridden : Bool
  orderDetails : OrderDetailsJson
deriving DecidableEq, Repr

/-- A row of the statusHistory table (a StatusHistoryEntry). -/
structure StatusHistoryEntry where
  orderId : String
  fromStatus : Option String
  toStatus : String
  changedBy : String
deriving DecidableEq, Repr

/-- The fields of an order row that the material-ordering core and the two
order-update handlers read or write. -/
structure Order where
  id : String
  status : String
  notes : String
  updatedAt : Int
deriving DecidableEq, Repr

/-- The persistent state seen through the Order Store interface, together
with the fault-injection fields for the external collaborator: updateOrder
rejects exactly on ids listed in failingIds, and the audit-history select
rejects exactly when historyReadFails is set. -/
structure Store where
  orders : List Order
  statusHistory : List StatusHistoryEntry
  materialOrderHistory : List AuditRecord
  failingIds : List String := []
  historyReadFails : Bool := false
deriving DecidableEq, Repr

/-- The transient result of the duplicate/risk detector. -/
structure DuplicateOrderCheck where
  isDuplicate : Bool
  existingOrders : List AuditRecord
  requiresOverride : Bool
  riskLevel : RiskLevel
deriving DecidableEq, Repr

/-- The class constant MANAGEMENT_OVERRIDE_CODE. -/
def MANAGEMENT_OVERRIDE_CODE : String := "MGMT_OVERRIDE_2025_MATERIALS"

/-- The class constant DUPLICATE_THRESHOLD_HOURS. -/
def DUPLICATE_THRESHOLD_HOURS : Int := 24

/-- The class constant MAX_DAILY_ORDERS_PER_VENDOR. -/
def MAX_DAILY_ORDERS_PER_VENDOR : Nat := 5

/-- JavaScript truthiness of an optional string argument: an absent argument
and the empty string are both falsy. -/
def isTruthy : Option String → Bool
  | none => false
  | some s => !(s == "")

/-- storage.getOrder: first order row with the given id, none when absent. -/
def getOrder (st : Store) (id : String) : Option Order :=
  st.orders.find? (fun o => o.id == id)

/-- storage.updateOrder seen through the per-call try/catch of its callers:
rejects (none) exactly on the injected failingIds, otherwise applies the
field update to every row with the given id.  A missing id is not an error
at this interface: the underlying update simply matches no row. -/
def updateOrderWith (st : Store) (id : String) (f : Order → Order) : Option Store :=
  if st.failingIds.contains id then none
  else some { st with orders := st.orders.map (fun o => if o.id == id then f o else o) }

/-- storage.createStatusHistory: appends one StatusHistoryEntry. -/
def createStatusHistory (st : Store) (e : StatusHistoryEntry) : Store :=
  { st with statusHistory := st.statusHistory ++ [e] }

/-- Maximal run of decimal digits at the head of the character list. -/
def leadingDigits (cs : List Char) : List Char := cs.takeWhile Char.isDigit

/-- One attempt of the regex at the current position: succeeds when the text
starts with the literal pre, then the vendor letter, then at least one digit;
returns the captured group (letter plus digits). -/
def codeAt (pre : List Char) (letter : Char) (cs : List Char) : Option (List Char) :=
  if cs.take pre.length == pre then
    match cs.drop pre.length with
    | [] => none
    | c :: rest =>
      if c == letter then
        let ds := leadingDigits rest
        if ds.isEmpty then none else some (c :: ds)
      else none
  else none

/-- First match of the pattern pre-letter-digits anywhere in the text, as
String.match with a non-anchored regex finds it. -/
def findCode (pre : List Char) (letter : Char) : List Char → Option (List Char)
  | [] => none
  | c :: rest =>
    match codeAt pre letter (c :: rest) with
    | some r => some r
    | none => findCode pre letter rest

/-- Substring test, as String.includes. -/
def containsSub (needle : List Char) : List Char → Bool
  | [] => needle.isEmpty
  | c :: rest => ((c :: rest).take needle.length == needle) || containsSub needle rest

/-- extractMaterialsFromNotes: pattern-matches the free-text notes against the
known vendor code patterns and collects vendor and item pairs in push order
(Roma Moulding, Larson Juhl, Crescent, Guardian Glass). -/
def extractMaterialsFromNotes (notes : String) : List MaterialSig :=
  let cs := notes.toList
  let roma := (findCode "Frame: ".toList 'R' cs).map
    (fun s => ({ vendor := "Roma Moulding", item := String.mk s } : MaterialSig))
  let larson := (findCode "Frame: ".toList 'L' cs).map
    (fun s => ({ vendor := "Larson Juhl", item := String.mk s } : MaterialSig))
  let crescent := (findCode "Mat: ".toList 'C' cs).map
    (fun s => ({ vendor := "Crescent", item := String.mk s } : MaterialSig))
  let glass := if containsSub "Museum Glass".toList cs then
      [({ vendor := "Guardian Glass", item := "Museum Glass" } : MaterialSig)]
    else []
  roma.toList ++ larson.toList ++ crescent.toList ++ glass

/-- The vendor-colon-item key used to compare material signatures. -/
def sigKey (m : MaterialSig) : String := m.vendor ++ ":" ++ m.item

/-- calculateMaterialSimilarity: Jaccard similarity (intersection over union
of the vendor-colon-item key sets), with both empty-list guards of the
source kept. -/
def calculateMaterialSimilarity (materials1 materials2 : List MaterialSig) : Rat :=
  if materials1.length == 0 && materials2.length == 0 then 0
  else if materials1.length == 0 || materials2.length == 0 then 0
  else
    let set1 := (materials1.map sigKey).dedup
    let set2 := (materials2.map sigKey).dedup
    let inter := set1.filter (fun x => set2.contains x)
    let uni := (set1 ++ set2).dedup
    (inter.length : Rat) / (uni.length : Rat)

/-- checkSimilarMaterials: true when some candidate order's extracted
signature is more than 80 percent similar to the stored material list of
some recent audit record.  The source threshold 0.8 is the rational
four fifths, written mkRat 4 5. -/
def checkSimilarMaterials (newOrders : List (Option Order))
    (recentOrders : List AuditRecord) : Bool :=
  newOrders.any fun o? =>
    match o? with
    | none => false
    | some o =>
      let newMats := extractMaterialsFromNotes o.notes
      recentOrders.any fun r =>
        decide (calculateMaterialSimilarity newMats r.orderDetails.materials > mkRat 4 5)

/-- The vendor recorded on an audit record's orderDetails snapshot, with the
Unknown default of the source. -/
def recordVendor (r : AuditRecord) : String := r.orderDetails.vendor.getD "Unknown"

/-- checkVendorOrderLimits: true when some candidate order names a vendor
whose count of recent audit records already reaches the daily cap. -/
def checkVendorOrderLimits (newOrders : List (Option Order))
    (recentOrders : List AuditRecord) : Bool :=
  newOrders.any fun o? =>
    match o? with
    | none => false
    | some o =>
      let vendors := ((extractMaterialsFromNotes o.notes).map MaterialSig.vendor).filter
        (fun v => v != "")
      vendors.any fun v =>
        decide (MAX_DAILY_ORDERS_PER_VENDOR ≤
          (recentOrders.filter (fun r => recordVendor r == v)).length)

/-- The audit records inside the lookback window: orderedAt at or after
now minus DUPLICATE_THRESHOLD_HOURS. -/
def recentHistory (st : Store) (now : Int) : List AuditRecord :=
  st.materialOrderHistory.filter
    (fun r => decide (now - DUPLICATE_THRESHOLD_HOURS ≤ r.orderedAt))

/-- The fail-safe detector result returned on any error: CRITICAL risk,
override required, no duplicate flag, no matching records. -/
def failSafeCheck : DuplicateOrderCheck :=
  { isDuplicate := false
    existingOrders := []
    requiresOverride := true
    riskLevel := .CRITICAL }

/-- checkDuplicateOrders: fetches the recent audit window, flags exact order
id duplicates as CRITICAL, otherwise similar materials as HIGH, otherwise
vendor volume as MEDIUM, otherwise LOW; any error yields the fail-safe
result through the surrounding try/catch. -/
def checkDuplicateOrders (st : Store) (now : Int) (orderIds : List String) :
    DuplicateOrderCheck :=
  if st.historyReadFails then failSafeCheck
  else
    let recentOrders := recentHistory st now
    let duplicateOrderIds := orderIds.filter
      (fun oid => recentOrders.any (fun r => r.orderId == oid))
    let orderDetails := orderIds.map (getOrder st)
    let classified :=
      if duplicateOrderIds.length > 0 then (RiskLevel.CRITICAL, true)
      else if checkSimilarMaterials orderDetails recentOrders then (RiskLevel.HIGH, true)
      else if checkVendorOrderLimits orderDetails recentOrders then (RiskLevel.MEDIUM, true)
      else (RiskLevel.LOW, false)
    { isDuplicate := duplicateOrderIds.length > 0
      existingOrders := recentOrders.filter (fun r => duplicateOrderIds.contains r.orderId)
      requiresOverride := classified.2
      riskLevel := classified.1 }

/-- verifyManagementAuthorization: compares the supplied code against the
static management secret; the userId and reason arguments only feed logging. -/
def verifyManagementAuthorization (overrideCode _userId _reason : String) : Bool :=
  overrideCode == MANAGEMENT_OVERRIDE_CODE

/-- The audit record logMaterialOrder inserts.  The orderDetails snapshot the
source serialises holds only timestamp, userId and wasOverridden, so parsed
back it has no materials list and no vendor field.  The random UUID of the
source is modelled as an id derived from the order id. -/
def mkAudit (now : Int) (orderId userId : String) (wasOverridden : Bool) : AuditRecord :=
  { id := "audit-" ++ orderId
    orderId := orderId
    orderedBy := userId
    orderedAt := now
    wasOverridden := wasOverridden
    orderDetails := { materials := [], vendor := none } }

/-- logMaterialOrder: appends one audit record for the processed order. -/
def logMaterialOrder (st : Store) (now : Int) (orderId userId : String)
    (wasOverridden : Bool) : Store :=
  { st with materialOrderHistory := st.materialOrderHistory ++
      [mkAudit now orderId userId wasOverridden] }

/-- The structured result processMaterialOrder returns to its caller; the
requiresOverride and duplicateCheck fields are only present on some paths. -/
structure ProcessOutcome where
  success : Bool
  message : String
  requiresOverride : Option Bool := none
  duplicateCheck : Option DuplicateOrderCheck := none
deriving DecidableEq, Repr

/-- Display name of a risk level, as interpolated into messages. -/
def RiskLevel.name : RiskLevel → String
  | .LOW => "LOW"
  | .MEDIUM => "MEDIUM"
  | .HIGH => "HIGH"
  | .CRITICAL => "CRITICAL"

/-- The message of the blocked return when an override is required but no
override code was supplied. -/
def overrideRequiredMessage (dc : DuplicateOrderCheck) : String :=
  "MANAGEMENT OVERRIDE REQUIRED: " ++ dc.riskLevel.name ++ " risk detected. " ++
    (if dc.isDuplicate then "Duplicate orders found." else "Similar orders recently placed.")

/-- The default substituted for a falsy override reason at the authorization
call site. -/
def reasonOrDefault : Option String → String
  | none => "Material ordering override"
  | some s => if s == "" then "Material ordering override" else s

/-- One iteration of the per-order processing step: update the order status
to MATERIALS_ORDERED, then log the audit record; a rejected update is caught
by the per-order try/catch, leaving that order untouched and marking the
batch item failed.  The audit insert's own errors are swallowed in the
source and not modelled. -/
def processOneOrder (st : Store) (now : Int) (userId : String) (wasOverridden : Bool)
    (orderId : String) : Store × Bool :=
  match updateOrderWith st orderId
      (fun o => { o with status := "MATERIALS_ORDERED", updatedAt := now }) with
  | none => (st, false)
  | some st1 => (logMaterialOrder st1 now orderId userId wasOverridden, true)

/-- The per-order processing over the whole batch, as a linearisation of the
independent per-order tasks, returning the final state and the per-item
success flags in batch order. -/
def processBatch (now : Int) (userId : String) (wasOverridden : Bool) :
    Store → List String → Store × List Bool
  | st, [] => (st, [])
  | st, oid :: rest =>
    let p := processOneOrder st now userId wasOverridden oid
    let q := processBatch now userId wasOverridden p.1 rest
    (q.1, p.2 :: q.2)

/-- The aggregate message of a completed batch. -/
def mkProcessMessage (successCount failedCount : Nat) (usedOverride : Bool) : String :=
  "Successfully ordered materials for " ++ toString successCount ++ " orders" ++
    (if 0 < failedCount then ", " ++ toString failedCount ++ " failed" else "") ++
    (if usedOverride then " (Management Override Used)" else "")

/-- Step 4 and 5 of processMaterialOrder: process every order id, then
aggregate the counts into the result. -/
def processOrdersStep (st : Store) (now : Int) (orderIds : List String)
    (userId : String) (overrideCode : Option String) (dc : DuplicateOrderCheck) :
    ProcessOutcome × Store :=
  let pr := processBatch now userId (isTruthy overrideCode) st orderIds
  let successCount := (pr.2.filter (fun b => b)).length
  let failedCount := (pr.2.filter (fun b => !b)).length
  ({ success := decide (0 < successCount)
     message := mkProcessMessage successCount failedCount (isTruthy overrideCode)
     duplicateCheck := some dc }, pr.1)

/-- processMaterialOrder: runs the duplicate check, blocks when an override
is required but absent, rejects an invalid override code, and otherwise
processes the batch.  The source tests the optional arguments by JavaScript
truthiness throughout. -/
def processMaterialOrder (st : Store) (now : Int) (orderIds : List String)
    (userId : String) (overrideCode : Option String) (overrideReason : Option String) :
    ProcessOutcome × Store :=
  let dc := checkDuplicateOrders st now orderIds
  if dc.requiresOverride && !(isTruthy overrideCode) then
    ({ success := false
       message := overrideRequiredMessage dc
       requiresOverride := some true
       duplicateCheck := some dc }, st)
  else if dc.requiresOverride && isTruthy overrideCode &&
      !(verifyManagementAuthorization (overrideCode.getD "") userId
        (reasonOrDefault overrideReason)) then
    ({ success := false
       message := "UNAUTHORIZED: Invalid management override code"
       requiresOverride := some true
       duplicateCheck := some dc }, st)
  else
    processOrdersStep st now orderIds userId overrideCode dc

/-- Outcome of an order-update HTTP handler, projected to what the claims
need: 200, 404, or the catch-block 500. -/
inductive RouteResult where
  | ok
  | notFound
  | serverError
deriving DecidableEq, Repr

/-- The dedicated status route (PATCH on an order's status): 404 when the
order is missing, otherwise update the status and unconditionally append one
StatusHistoryEntry; a rejected update hits the catch block before the
history insert. -/
def patchOrderStatusRoute (st : Store) (now : Int) (orderId status changedBy : String) :
    RouteResult × Store :=
  match getOrder st orderId with
  | none => (.notFound, st)
  | some currentOrder =>
    match updateOrderWith st orderId
        (fun o => { o with status := status, updatedAt := now }) with
    | none => (.serverError, st)
    | some st1 =>
      (.ok, createStatusHistory st1
        { orderId := orderId
          fromStatus := some currentOrder.status
          toStatus := status
          changedBy := changedBy })

/-- The general order-update route (PATCH on the order), projected to its
status handling: 404 when the order is missing; a StatusHistoryEntry is
appended only when a truthy status is submitted that differs from the current
one, and then the row is updated (the history insert precedes the update in
the source). -/
def patchOrderRoute (st : Store) (now : Int) (orderId : String)
    (updStatus : Option String) (changedBy : String) : RouteResult × Store :=
  match getOrder st orderId with
  | none => (.notFound, st)
  | some currentOrder =>
    let st1 :=
      if isTruthy updStatus && !(updStatus.getD "" == currentOrder.status) then
        createStatusHistory st
          { orderId := orderId
            fromStatus := some currentOrder.status
            toStatus := updStatus.getD ""
            changedBy := changedBy }
      else st
    match updateOrderWith st1 orderId
        (fun o => { o with
          status := (match updStatus with | some s => s | none => o.status)
          updatedAt := now }) with
    | none => (.serverError, st1)
    | some st2 => (.ok, st2)


/-! ### Basic facts about the store operations -/

theorem contains_eq_false_of_not {l : List String} {a : String}
    (h : ¬ l.contains a = true) : l.contains a = false := by
  revert h
  cases l.contains a <;> simp

theorem updateOrderWith_spec (st st' : Store) (id : String) (f : Order → Order)
    (h : updateOrderWith st id f = some st') :
    st.failingIds.contains id = false ∧
    st' = { st with orders := st.orders.map (fun o => if o.id == id then f o else o) } := by
  rw [updateOrderWith] at h
  by_cases hc : st.failingIds.contains id = true
  · rw [if_pos hc] at h
    exact absurd h (by intro hx; cases hx)
  · rw [if_neg hc] at h
    exact ⟨contains_eq_false_of_not hc, (Option.some.inj h).symm⟩

theorem find?_map_update {f : Order → Order} (hf : ∀ o, (f o).id = o.id) (id : String) :
    ∀ l : List Order,
      (l.map (fun o => if o.id == id then f o else o)).find? (fun o => o.id == id)
        = (l.find? (fun o => o.id == id)).map f := by
  intro l
  induction l with
  | nil => rfl
  | cons o rest ih =>
    by_cases h : (o.id == id) = true
    · have h2 : ((f o).id == id) = true := by rw [hf]; exact h
      rw [List.map_cons, if_pos h]
      simp only [List.find?, h2, h, Option.map_some']
    · have hfalse : (o.id == id) = false := by
        revert h; cases o.id == id <;> simp
      rw [List.map_cons, if_neg h]
      simp only [List.find?, hfalse]
      exact ih

theorem getOrder_updateOrderWith (st st' : Store) (id : String) (f : Order → Order)
    (hf : ∀ o, (f o).id = o.id) (h : updateOrderWith st id f = some st') :
    getOrder st' id = (getOrder st id).map f := by
  obtain ⟨-, hst⟩ := updateOrderWith_spec st st' id f h
  subst hst
  exact find?_map_update hf id st.orders

/-! ### Characterisation of the per-order processing step -/

theorem processOneOrder_spec (st : Store) (now : Int) (uid : String) (w : Bool)
    (oid : String) :
    processOneOrder st now uid w oid =
      if st.failingIds.contains oid then (st, false)
      else
        ({ st with
            orders := st.orders.map (fun o =>
              if o.id == oid then { o with status := "MATERIALS_ORDERED", updatedAt := now }
              else o)
            materialOrderHistory := st.materialOrderHistory ++ [mkAudit now oid uid w] },
          true) := by
  by_cases hc : st.failingIds.contains oid = true
  · rw [processOneOrder, updateOrderWith, if_pos hc, if_pos hc]
  · rw [processOneOrder, updateOrderWith, if_neg hc, if_neg hc]
    rfl

theorem processOneOrder_statusHistory (st : Store) (now : Int) (uid : String) (w : Bool)
    (oid : String) :
    (processOneOrder st now uid w oid).1.statusHistory = st.statusHistory := by
  rw [processOneOrder_spec]
  by_cases hc : st.failingIds.contains oid = true
  · rw [if_pos hc]
  · rw [if_neg hc]

theorem processOneOrder_failingIds (st : Store) (now : Int) (uid : String) (w : Bool)
    (oid : String) :
    (processOneOrder st now uid w oid).1.failingIds = st.failingIds := by
  rw [processOneOrder_spec]
  by_cases hc : st.failingIds.contains oid = true
  · rw [if_pos hc]
  · rw [if_neg hc]

theorem processOneOrder_snd (st : Store) (now : Int) (uid : String) (w : Bool)
    (oid : String) :
    (processOneOrder st now uid w oid).2 = !(st.failingIds.contains oid) := by
  rw [processOneOrder_spec]
  by_cases hc : st.failingIds.contains oid = true
  · rw [if_pos hc, hc]
    rfl
  · rw [if_neg hc, contains_eq_false_of_not hc]
    rfl

theorem processBatch_statusHistory (now : Int) (uid : String) (w : Bool) :
    ∀ (ids : List String) (st : Store),
      (processBatch now uid w st ids).1.statusHistory = st.statusHistory := by
  intro ids
  induction ids with
  | nil => intro st; rfl
  | cons oid rest ih =>
    intro st
    show (processBatch now uid w (processOneOrder st now uid w oid).1 rest).1.statusHistory
      = st.statusHistory
    rw [ih, processOneOrder_statusHistory]

theorem processBatch_failingIds (now : Int) (uid : String) (w : Bool) :
    ∀ (ids : List String) (st : Store),
      (processBatch now uid w st ids).1.failingIds = st.failingIds := by
  intro ids
  induction ids with
  | nil => intro st; rfl
  | cons oid rest ih =>
    intro st
    show (processBatch now uid w (processOneOrder st now uid w oid).1 rest).1.failingIds
      = st.failingIds
    rw [ih, processOneOrder_failingIds]

theorem processBatch_results (now : Int) (uid : String) (w : Bool) :
    ∀ (ids : List String) (st : Store),
      (processBatch now uid w st ids).2 = ids.map (fun i => !(st.failingIds.contains i)) := by
  intro ids
  induction ids with
  | nil => intro st; rfl
  | cons oid rest ih =>
    intro st
    show (processOneOrder st now uid w oid).2 ::
        (processBatch now uid w (processOneOrder st now uid w oid).1 rest).2
      = (oid :: rest).map (fun i => !(st.failingIds.contains i))
    rw [ih, processOneOrder_failingIds, processOneOrder_snd, List.map_cons]

theorem processBatch_audit (now : Int) (uid : String) (w : Bool) :
    ∀ (ids : List String) (st : Store),
      (processBatch now uid w st ids).1.materialOrderHistory =
        st.materialOrderHistory ++
          (ids.filter (fun i => !(st.failingIds.contains i))).map
            (fun i => mkAudit now i uid w) := by
  intro ids
  induction ids with
  | nil => intro st; simp [processBatch]
  | cons oid rest ih =>
    intro st
    show (processBatch now uid w (processOneOrder st now uid w oid).1 rest).1.materialOrderHistory
      = st.materialOrderHistory ++
          ((oid :: rest).filter (fun i => !(st.failingIds.contains i))).map
            (fun i => mkAudit now i uid w)
    rw [ih, processOneOrder_failingIds]
    rw [processOneOrder_spec]
    by_cases hc : st.failingIds.contains oid = true
    · rw [if_pos hc, List.filter_cons]
      have : (!(st.failingIds.contains oid)) = false := by rw [hc]; rfl
      rw [this]
      rfl
    · rw [if_neg hc, List.filter_cons]
      have : (!(st.failingIds.contains oid)) = true := by
        rw [contains_eq_false_of_not hc]; rfl
      rw [this, if_pos rfl, List.map_cons, List.append_assoc]
      rfl


/-! ### Status updates across a batch -/

theorem processOneOrder_status_pres (st : Store) (now : Int) (uid : String) (w : Bool)
    (j id : String)
    (h : ∀ o ∈ st.orders, o.id = id → o.status = "MATERIALS_ORDERED") :
    ∀ o ∈ (processOneOrder st now uid w j).1.orders,
      o.id = id → o.status = "MATERIALS_ORDERED" := by
  rw [processOneOrder_spec]
  by_cases hc : st.failingIds.contains j = true
  · rw [if_pos hc]; exact h
  · rw [if_neg hc]
    intro o ho hid
    obtain ⟨o0, ho0, rfl⟩ := List.mem_map.mp ho
    by_cases hj : (o0.id == j) = true
    · rw [if_pos hj]
    · rw [if_neg hj]
      rw [if_neg hj] at hid
      exact h o0 ho0 hid

theorem processOneOrder_status_est (st : Store) (now : Int) (uid : String) (w : Bool)
    (id : String) (hfail : st.failingIds.contains id = false) :
    ∀ o ∈ (processOneOrder st now uid w id).1.orders,
      o.id = id → o.status = "MATERIALS_ORDERED" := by
  rw [processOneOrder_spec, if_neg (by rw [hfail]; intro hx; cases hx)]
  intro o ho hid
  obtain ⟨o0, ho0, rfl⟩ := List.mem_map.mp ho
  by_cases hj : (o0.id == id) = true
  · rw [if_pos hj]
  · rw [if_neg hj] at hid ⊢
    exact absurd (beq_iff_eq.mpr hid) hj

theorem processBatch_status_pres (now : Int) (uid : String) (w : Bool) (id : String) :
    ∀ (ids : List String) (st : Store),
      (∀ o ∈ st.orders, o.id = id → o.status = "MATERIALS_ORDERED") →
      ∀ o ∈ (processBatch now uid w st ids).1.orders,
        o.id = id → o.status = "MATERIALS_ORDERED" := by
  intro ids
  induction ids with
  | nil => intro st h; exact h
  | cons oid rest ih =>
    intro st h
    exact ih (processOneOrder st now uid w oid).1
      (processOneOrder_status_pres st now uid w oid id h)

theorem processBatch_status (now : Int) (uid : String) (w : Bool) (id : String) :
    ∀ (ids : List String) (st : Store), id ∈ ids →
      st.failingIds.contains id = false →
      ∀ o ∈ (processBatch now uid w st ids).1.orders,
        o.id = id → o.status = "MATERIALS_ORDERED" := by
  intro ids
  induction ids with
  | nil => intro st h; cases h
  | cons oid rest ih =>
    intro st hmem hfail
    rcases List.mem_cons.mp hmem with heq | htl
    · subst heq
      exact processBatch_status_pres now uid w id rest (processOneOrder st now uid w id).1
        (processOneOrder_status_est st now uid w id hfail)
    · exact ih (processOneOrder st now uid w oid).1 htl
        (by rw [processOneOrder_failingIds]; exact hfail)

theorem processOneOrder_order_ids (st : Store) (now : Int) (uid : String) (w : Bool)
    (oid : String) :
    (processOneOrder st now uid w oid).1.orders.map (fun o => o.id)
      = st.orders.map (fun o => o.id) := by
  rw [processOneOrder_spec]
  by_cases hc : st.failingIds.contains oid = true
  · rw [if_pos hc]
  · rw [if_neg hc]
    show (st.orders.map _).map _ = _
    rw [List.map_map]
    apply List.map_congr_left
    intro o _
    by_cases hj : (o.id == oid) = true
    · simp only [Function.comp, if_pos hj]
    · simp only [Function.comp, if_neg hj]

theorem processBatch_order_ids (now : Int) (uid : String) (w : Bool) :
    ∀ (ids : List String) (st : Store),
      (processBatch now uid w st ids).1.orders.map (fun o => o.id)
        = st.orders.map (fun o => o.id) := by
  intro ids
  induction ids with
  | nil => intro st; rfl
  | cons oid rest ih =>
    intro st
    show (processBatch now uid w (processOneOrder st now uid w oid).1 rest).1.orders.map _
      = _
    rw [ih, processOneOrder_order_ids]

theorem getOrder_isSome_of_ids (st st' : Store)
    (h : st'.orders.map (fun o => o.id) = st.orders.map (fun o => o.id)) (id : String)
    (hsome : (getOrder st id).isSome = true) : (getOrder st' id).isSome = true := by
  rw [getOrder, List.find?_isSome] at hsome ⊢
  obtain ⟨o, ho, hp⟩ := hsome
  have : o.id ∈ st'.orders.map (fun o => o.id) := by
    rw [h]
    exact List.mem_map.mpr ⟨o, ho, rfl⟩
  obtain ⟨o', ho', hid⟩ := List.mem_map.mp this
  exact ⟨o', ho', by rw [hid]; exact hp⟩

/-! ### Path analysis of processMaterialOrder -/

theorem processMaterialOrder_blocked (st : Store) (now : Int) (ids : List String)
    (uid : String) (oc reason : Option String)
    (h : ((checkDuplicateOrders st now ids).requiresOverride && !(isTruthy oc)) = true) :
    processMaterialOrder st now ids uid oc reason =
      ({ success := false
         message := overrideRequiredMessage (checkDuplicateOrders st now ids)
         requiresOverride := some true
         duplicateCheck := some (checkDuplicateOrders st now ids) }, st) := by
  rw [processMaterialOrder, if_pos h]

theorem processMaterialOrder_unauthorized (st : Store) (now : Int) (ids : List String)
    (uid : String) (oc reason : Option String)
    (h1 : ((checkDuplicateOrders st now ids).requiresOverride && !(isTruthy oc)) = false)
    (h2 : ((checkDuplicateOrders st now ids).requiresOverride && isTruthy oc &&
      !(verifyManagementAuthorization (oc.getD "") uid (reasonOrDefault reason))) = true) :
    processMaterialOrder st now ids uid oc reason =
      ({ success := false
         message := "UNAUTHORIZED: Invalid management override code"
         requiresOverride := some true
         duplicateCheck := some (checkDuplicateOrders st now ids) }, st) := by
  rw [processMaterialOrder, if_neg (by rw [h1]; intro hx; cases hx), if_pos h2]

theorem processMaterialOrder_processes (st : Store) (now : Int) (ids : List String)
    (uid : String) (oc reason : Option String)
    (h1 : ((checkDuplicateOrders st now ids).requiresOverride && !(isTruthy oc)) = false)
    (h2 : ((checkDuplicateOrders st now ids).requiresOverride && isTruthy oc &&
      !(verifyManagementAuthorization (oc.getD "") uid (reasonOrDefault reason))) = false) :
    processMaterialOrder st now ids uid oc reason =
      processOrdersStep st now ids uid oc (checkDuplicateOrders st now ids) := by
  rw [processMaterialOrder, if_neg (by rw [h1]; intro hx; cases hx),
    if_neg (by rw [h2]; intro hx; cases hx)]

theorem processMaterialOrder_duplicateCheck (st : Store) (now : Int) (ids : List String)
    (uid : String) (oc reason : Option String) :
    (processMaterialOrder st now ids uid oc reason).1.duplicateCheck
      = some (checkDuplicateOrders st now ids) := by
  by_cases h1 : ((checkDuplicateOrders st now ids).requiresOverride && !(isTruthy oc)) = true
  · rw [processMaterialOrder_blocked st now ids uid oc reason h1]
  · have h1f : ((checkDuplicateOrders st now ids).requiresOverride && !(isTruthy oc)) = false := by
      revert h1; cases ((checkDuplicateOrders st now ids).requiresOverride && !(isTruthy oc)) <;> simp
    by_cases h2 : ((checkDuplicateOrders st now ids).requiresOverride && isTruthy oc &&
        !(verifyManagementAuthorization (oc.getD "") uid (reasonOrDefault reason))) = true
    · rw [processMaterialOrder_unauthorized st now ids uid oc reason h1f h2]
    · have h2f : ((checkDuplicateOrders st now ids).requiresOverride && isTruthy oc &&
          !(verifyManagementAuthorization (oc.getD "") uid (reasonOrDefault reason))) = false := by
        revert h2
        cases ((checkDuplicateOrders st now ids).requiresOverride && isTruthy oc &&
          !(verifyManagementAuthorization (oc.getD "") uid (reasonOrDefault reason))) <;> simp
      rw [processMaterialOrder_processes st now ids uid oc reason h1f h2f]
      rfl

/-! ### Counting batch outcomes -/

theorem filter_true_map (f : String → Bool) :
    ∀ l : List String,
      ((l.map f).filter (fun b => b)).length = (l.filter f).length := by
  intro l
  induction l with
  | nil => rfl
  | cons a rest ih =>
    by_cases h : f a = true
    · simp [List.filter_cons, h, ih]
    · have hf : f a = false := by revert h; cases f a <;> simp
      simp [List.filter_cons, hf, ih]

theorem filter_false_map (f : String → Bool) :
    ∀ l : List String,
      ((l.map f).filter (fun b => !b)).length = (l.filter (fun i => !(f i))).length := by
  intro l
  induction l with
  | nil => rfl
  | cons a rest ih =>
    by_cases h : f a = true
    · simp [List.filter_cons, h, ih]
    · have hf : f a = false := by revert h; cases f a <;> simp
      simp [List.filter_cons, hf, ih]

/-! ### Characterisation of the detector on the success path -/

/-- The order ids of the batch that exactly match a recent audit record. -/
def dupIds (st : Store) (now : Int) (ids : List String) : List String :=
  ids.filter (fun oid => (recentHistory st now).any (fun r => r.orderId == oid))

theorem checkDuplicateOrders_ok (st : Store) (now : Int) (ids : List String)
    (hf : st.historyReadFails = false) :
    checkDuplicateOrders st now ids =
      { isDuplicate := decide (0 < (dupIds st now ids).length)
        existingOrders := (recentHistory st now).filter
          (fun r => (dupIds st now ids).contains r.orderId)
        requiresOverride :=
          (if 0 < (dupIds st now ids).length then (RiskLevel.CRITICAL, true)
           else if checkSimilarMaterials (ids.map (getOrder st)) (recentHistory st now)
             then (RiskLevel.HIGH, true)
           else if checkVendorOrderLimits (ids.map (getOrder st)) (recentHistory st now)
             then (RiskLevel.MEDIUM, true)
           else (RiskLevel.LOW, false)).2
        riskLevel :=
          (if 0 < (dupIds st now ids).length then (RiskLevel.CRITICAL, true)
           else if checkSimilarMaterials (ids.map (getOrder st)) (recentHistory st now)
             then (RiskLevel.HIGH, true)
           else if checkVendorOrderLimits (ids.map (getOrder st)) (recentHistory st now)
             then (RiskLevel.MEDIUM, true)
           else (RiskLevel.LOW, false)).1 } := by
  rw [checkDuplicateOrders, if_neg (by rw [hf]; intro hx; cases hx)]
  rfl
/-! ### Concrete fixtures used by witnesses and counterexamples -/

/-- An existing order used by concrete instantiations. -/
def o1 : Order := { id := "o1", status := "ORDER_PROCESSED", notes := "", updatedAt := 0 }

/-- A recent audit record for o1, written by the service's own logger. -/
def recentRec : AuditRecord := mkAudit 0 "o1" "staff" false

/-- A store holding o1 and a recent audit record for it. -/
def stWithRecent : Store :=
  { orders := [o1], statusHistory := [], materialOrderHistory := [recentRec] }

/-- A store holding only o1 and no history at all. -/
def stPlain : Store :=
  { orders := [o1], statusHistory := [], materialOrderHistory := [] }

/-- An empty store whose audit-history read fails. -/
def stReadFails : Store :=
  { orders := [], statusHistory := [], materialOrderHistory := [], historyReadFails := true }

/-! ### Claim theorems -/

/-- C2: whenever any error occurs during checkDuplicateOrders (the persistence
lookup fails), the returned DuplicateOrderCheck is exactly the fail-safe
result: riskLevel CRITICAL, requiresOverride true, isDuplicate false,
existingOrders empty — the error never yields a result that allows ordering. -/
theorem checkDuplicateOrders_failSafe_on_error (st : Store) (now : Int)
    (orderIds : List String) (h : st.historyReadFails = true) :
    checkDuplicateOrders st now orderIds =
      { isDuplicate := false
        existingOrders := []
        requiresOverride := true
        riskLevel := RiskLevel.CRITICAL } := by
  rw [checkDuplicateOrders, if_pos h]
  rfl

/-- Witness for C2 at a concrete failing store. -/
theorem checkDuplicateOrders_failSafe_on_error_witness :
    stReadFails.historyReadFails = true ∧
    checkDuplicateOrders stReadFails 0 ["o1"] =
      { isDuplicate := false
        existingOrders := []
        requiresOverride := true
        riskLevel := RiskLevel.CRITICAL } :=
  ⟨rfl, checkDuplicateOrders_failSafe_on_error stReadFails 0 ["o1"] rfl⟩

/-- C10: every DuplicateOrderCheck returned by checkDuplicateOrders, on every
return path including the error path, has requiresOverride true exactly when
riskLevel is not LOW, and isDuplicate implies riskLevel CRITICAL. -/
theorem checkDuplicateOrders_result_invariant (st : Store) (now : Int)
    (ids : List String) :
    ((checkDuplicateOrders st now ids).requiresOverride = true ↔
      (checkDuplicateOrders st now ids).riskLevel ≠ RiskLevel.LOW) ∧
    ((checkDuplicateOrders st now ids).isDuplicate = true →
      (checkDuplicateOrders st now ids).riskLevel = RiskLevel.CRITICAL) := by
  by_cases hf : st.historyReadFails = true
  · rw [checkDuplicateOrders, if_pos hf]
    decide
  · have hf' : st.historyReadFails = false := by
      revert hf; cases st.historyReadFails <;> simp
    rw [checkDuplicateOrders_ok st now ids hf']
    by_cases h1 : 0 < (dupIds st now ids).length
    · rw [if_pos h1]
      simp [h1]
    · rw [if_neg h1]
      by_cases h2 : checkSimilarMaterials (ids.map (getOrder st)) (recentHistory st now) = true
      · rw [if_pos h2]
        simp [h1]
      · rw [if_neg h2]
        by_cases h3 : checkVendorOrderLimits (ids.map (getOrder st)) (recentHistory st now) = true
        · rw [if_pos h3]
          simp [h1]
        · rw [if_neg h3]
          simp [h1]

/-- C4: if some orderId of the batch appears as the orderId of an audit record
whose orderedAt lies within the last 24 hours, and the history read succeeds,
then checkDuplicateOrders reports isDuplicate true, riskLevel CRITICAL,
requiresOverride true, and the matching record among existingOrders. -/
theorem checkDuplicateOrders_exact_duplicate (st : Store) (now : Int)
    (ids : List String) (id : String) (rec : AuditRecord)
    (hf : st.historyReadFails = false) (hid : id ∈ ids)
    (hrec : rec ∈ st.materialOrderHistory) (horder : rec.orderId = id)
    (hwin : now - DUPLICATE_THRESHOLD_HOURS ≤ rec.orderedAt) :
    (checkDuplicateOrders st now ids).isDuplicate = true ∧
    (checkDuplicateOrders st now ids).riskLevel = RiskLevel.CRITICAL ∧
    (checkDuplicateOrders st now ids).requiresOverride = true ∧
    rec ∈ (checkDuplicateOrders st now ids).existingOrders := by
  have hrecent : rec ∈ recentHistory st now := by
    rw [recentHistory]
    exact List.mem_filter.mpr ⟨hrec, decide_eq_true hwin⟩
  have hdup : id ∈ dupIds st now ids := by
    rw [dupIds]
    refine List.mem_filter.mpr ⟨hid, ?_⟩
    rw [List.any_eq_true]
    exact ⟨rec, hrecent, by rw [horder]; exact beq_self_eq_true id⟩
  have hlen : 0 < (dupIds st now ids).length :=
    List.length_pos.mpr (List.ne_nil_of_mem hdup)
  rw [checkDuplicateOrders_ok st now ids hf, if_pos hlen]
  refine ⟨by simp [hlen], rfl, rfl, ?_⟩
  refine List.mem_filter.mpr ⟨hrecent, ?_⟩
  rw [horder]
  exact List.elem_iff.mpr hdup

/-- Witness for C4 at a concrete store with a one-hour-old duplicate. -/
theorem checkDuplicateOrders_exact_duplicate_witness :
    (checkDuplicateOrders stWithRecent 1 ["o1"]).isDuplicate = true ∧
    (checkDuplicateOrders stWithRecent 1 ["o1"]).riskLevel = RiskLevel.CRITICAL ∧
    (checkDuplicateOrders stWithRecent 1 ["o1"]).requiresOverride = true ∧
    recentRec ∈ (checkDuplicateOrders stWithRecent 1 ["o1"]).existingOrders :=
  checkDuplicateOrders_exact_duplicate stWithRecent 1 ["o1"] "o1" recentRec rfl
    (by decide) (by decide) rfl (by decide)

/-- C3: when the duplicate check requires an override and the caller supplies
no override code, processMaterialOrder returns success false with
requiresOverride true and the computed duplicateCheck, and the state is
unchanged: no status mutated and no audit record written. -/
theorem processMaterialOrder_rejects_without_code (st : Store) (now : Int)
    (ids : List String) (uid : String) (reason : Option String)
    (h : (checkDuplicateOrders st now ids).requiresOverride = true) :
    (processMaterialOrder st now ids uid none reason).1.success = false ∧
    (processMaterialOrder st now ids uid none reason).1.requiresOverride = some true ∧
    (processMaterialOrder st now ids uid none reason).1.duplicateCheck =
      some (checkDuplicateOrders st now ids) ∧
    (processMaterialOrder st now ids uid none reason).2 = st := by
  have hb : ((checkDuplicateOrders st now ids).requiresOverride && !(isTruthy none)) = true := by
    rw [h]; rfl
  rw [processMaterialOrder_blocked st now ids uid none reason hb]
  exact ⟨rfl, rfl, rfl, rfl⟩

/-- Witness for C3 at a concrete store whose duplicate check is CRITICAL. -/
theorem processMaterialOrder_rejects_without_code_witness :
    (checkDuplicateOrders stWithRecent 1 ["o1"]).requiresOverride = true ∧
    ((processMaterialOrder stWithRecent 1 ["o1"] "u" none none).1.success = false ∧
     (processMaterialOrder stWithRecent 1 ["o1"] "u" none none).1.requiresOverride = some true ∧
     (processMaterialOrder stWithRecent 1 ["o1"] "u" none none).1.duplicateCheck =
       some (checkDuplicateOrders stWithRecent 1 ["o1"]) ∧
     (processMaterialOrder stWithRecent 1 ["o1"] "u" none none).2 = stWithRecent) :=
  ⟨by decide, processMaterialOrder_rejects_without_code stWithRecent 1 ["o1"] "u" none (by decide)⟩
/-! ### Characterisation of the processing step and its message -/

theorem processOrdersStep_spec (st : Store) (now : Int) (ids : List String)
    (uid : String) (oc : Option String) (dc : DuplicateOrderCheck) :
    processOrdersStep st now ids uid oc dc =
      ({ success := decide (0 < (ids.filter (fun i => !(st.failingIds.contains i))).length)
         message := mkProcessMessage
           (ids.filter (fun i => !(st.failingIds.contains i))).length
           (ids.filter (fun i => st.failingIds.contains i)).length (isTruthy oc)
         requiresOverride := none
         duplicateCheck := some dc },
       (processBatch now uid (isTruthy oc) st ids).1) := by
  simp only [processOrdersStep, processBatch_results, filter_true_map, filter_false_map,
    Bool.not_not]

theorem mkProcessMessage_reports_success (m f : Nat) (ov : Bool) :
    ∃ a b, mkProcessMessage m f ov = a ++ toString m ++ b := by
  refine ⟨"Successfully ordered materials for ",
    " orders" ++ (if 0 < f then ", " ++ toString f ++ " failed" else "") ++
      (if ov then " (Management Override Used)" else ""), ?_⟩
  simp [mkProcessMessage, String.append_assoc]

theorem mkProcessMessage_reports_failed (m f : Nat) (ov : Bool) (h : 0 < f) :
    ∃ a b, mkProcessMessage m f ov = a ++ (toString f ++ " failed") ++ b := by
  refine ⟨"Successfully ordered materials for " ++ toString m ++ " orders, ",
    (if ov then " (Management Override Used)" else ""), ?_⟩
  rw [mkProcessMessage, if_pos h]
  simp only [String.append_assoc]
  rw [← String.append_assoc " orders" ", "]
  rfl

theorem mkProcessMessage_reports_override (m f : Nat) (ov : Bool) (h : ov = true) :
    ∃ a, mkProcessMessage m f ov = a ++ " (Management Override Used)" := by
  refine ⟨"Successfully ordered materials for " ++ toString m ++ " orders" ++
    (if 0 < f then ", " ++ toString f ++ " failed" else ""), ?_⟩
  rw [mkProcessMessage, h]
  simp

/-- C8: for every batch that reaches the processing step, the result succeeds
exactly when at least one order succeeded, and the message reports the
success count, the failure count when nonzero, and the override note when an
override code was supplied. -/
theorem processMaterialOrder_aggregates (st : Store) (now : Int) (ids : List String)
    (uid : String) (oc reason : Option String)
    (h1 : ((checkDuplicateOrders st now ids).requiresOverride && !(isTruthy oc)) = false)
    (h2 : ((checkDuplicateOrders st now ids).requiresOverride && isTruthy oc &&
      !(verifyManagementAuthorization (oc.getD "") uid (reasonOrDefault reason))) = false) :
    ((processMaterialOrder st now ids uid oc reason).1.success = true ↔
      0 < (ids.filter (fun i => !(st.failingIds.contains i))).length) ∧
    (ids.filter (fun i => !(st.failingIds.contains i))).length +
      (ids.filter (fun i => st.failingIds.contains i)).length = ids.length ∧
    (processMaterialOrder st now ids uid oc reason).1.message =
      mkProcessMessage (ids.filter (fun i => !(st.failingIds.contains i))).length
        (ids.filter (fun i => st.failingIds.contains i)).length (isTruthy oc) ∧
    (∃ a b, (processMaterialOrder st now ids uid oc reason).1.message =
      a ++ toString (ids.filter (fun i => !(st.failingIds.contains i))).length ++ b) ∧
    (0 < (ids.filter (fun i => st.failingIds.contains i)).length →
      ∃ a b, (processMaterialOrder st now ids uid oc reason).1.message =
        a ++ (toString (ids.filter (fun i => st.failingIds.contains i)).length ++
          " failed") ++ b) ∧
    (isTruthy oc = true →
      ∃ a, (processMaterialOrder st now ids uid oc reason).1.message =
        a ++ " (Management Override Used)") := by
  rw [processMaterialOrder_processes st now ids uid oc reason h1 h2,
    processOrdersStep_spec]
  refine ⟨by simp, ?_, rfl, mkProcessMessage_reports_success _ _ _,
    fun h => mkProcessMessage_reports_failed _ _ _ h,
    fun h => mkProcessMessage_reports_override _ _ _ h⟩
  have hn := List.length_eq_length_filter_add (l := ids) (fun i => !(st.failingIds.contains i))
  have hdn : ids.filter (fun i => !(!(st.failingIds.contains i))) =
      ids.filter (fun i => st.failingIds.contains i) :=
    List.filter_congr (fun i _ => Bool.not_not _)
  rw [hdn] at hn
  exact hn.symm

/-- A store with o1 present where updates on the id bad fail transiently. -/
def stPartial : Store :=
  { orders := [o1], statusHistory := [], materialOrderHistory := [],
    failingIds := ["bad"] }

/-- Witness for C8 on a two-order batch with one injected store failure. -/
theorem processMaterialOrder_aggregates_witness :
    ((processMaterialOrder stPartial 0 ["o1", "bad"] "u" none none).1.success = true ↔
      0 < ((["o1", "bad"] : List String).filter
        (fun i => !(stPartial.failingIds.contains i))).length) ∧
    ((["o1", "bad"] : List String).filter
        (fun i => !(stPartial.failingIds.contains i))).length +
      ((["o1", "bad"] : List String).filter
        (fun i => stPartial.failingIds.contains i)).length =
      (["o1", "bad"] : List String).length ∧
    (processMaterialOrder stPartial 0 ["o1", "bad"] "u" none none).1.message =
      mkProcessMessage
        ((["o1", "bad"] : List String).filter
          (fun i => !(stPartial.failingIds.contains i))).length
        ((["o1", "bad"] : List String).filter
          (fun i => stPartial.failingIds.contains i)).length (isTruthy none) ∧
    (∃ a b, (processMaterialOrder stPartial 0 ["o1", "bad"] "u" none none).1.message =
      a ++ toString ((["o1", "bad"] : List String).filter
        (fun i => !(stPartial.failingIds.contains i))).length ++ b) ∧
    (0 < ((["o1", "bad"] : List String).filter
        (fun i => stPartial.failingIds.contains i)).length →
      ∃ a b, (processMaterialOrder stPartial 0 ["o1", "bad"] "u" none none).1.message =
        a ++ (toString ((["o1", "bad"] : List String).filter
          (fun i => stPartial.failingIds.contains i)).length ++ " failed") ++ b) ∧
    (isTruthy none = true →
      ∃ a, (processMaterialOrder stPartial 0 ["o1", "bad"] "u" none none).1.message =
        a ++ " (Management Override Used)") :=
  processMaterialOrder_aggregates stPartial 0 ["o1", "bad"] "u" none none
    (by decide) (by decide)
/-- C9: when the duplicate check does not require an override but the caller
nevertheless supplies an override code, the gate is never consulted — any
code, valid or not, yields the same processed outcome — the batch is
processed, and every audit record written for the batch carries
wasOverridden true. -/
theorem processMaterialOrder_unneeded_code_unverified (st : Store) (now : Int)
    (ids : List String) (uid : String) (c : String) (reason : Option String)
    (h : (checkDuplicateOrders st now ids).requiresOverride = false)
    (hc : isTruthy (some c) = true) :
    processMaterialOrder st now ids uid (some c) reason =
      processOrdersStep st now ids uid (some c) (checkDuplicateOrders st now ids) ∧
    (∀ c', isTruthy (some c') = true →
      processMaterialOrder st now ids uid (some c') reason =
        processMaterialOrder st now ids uid (some c) reason) ∧
    (∀ rec ∈ (processMaterialOrder st now ids uid (some c) reason).2.materialOrderHistory,
      rec ∈ st.materialOrderHistory ∨ rec.wasOverridden = true) := by
  have h1 : ∀ oc : Option String,
      ((checkDuplicateOrders st now ids).requiresOverride && !(isTruthy oc)) = false := by
    intro oc; rw [h]; rfl
  have h2 : ∀ oc : Option String,
      ((checkDuplicateOrders st now ids).requiresOverride && isTruthy oc &&
        !(verifyManagementAuthorization (oc.getD "") uid (reasonOrDefault reason))) = false := by
    intro oc; rw [h]; rfl
  refine ⟨processMaterialOrder_processes st now ids uid (some c) reason (h1 _) (h2 _),
    ?_, ?_⟩
  · intro c' hc'
    rw [processMaterialOrder_processes st now ids uid (some c') reason (h1 _) (h2 _),
      processMaterialOrder_processes st now ids uid (some c) reason (h1 _) (h2 _),
      processOrdersStep_spec, processOrdersStep_spec, hc, hc']
  · rw [processMaterialOrder_processes st now ids uid (some c) reason (h1 _) (h2 _),
      processOrdersStep_spec]
    intro rec hrec
    rw [processBatch_audit] at hrec
    rcases List.mem_append.mp hrec with hold | hnew
    · exact Or.inl hold
    · right
      obtain ⟨i, -, rfl⟩ := List.mem_map.mp hnew
      show isTruthy (some c) = true
      exact hc

/-- Witness for C9: an invalid code supplied on a LOW-risk batch is accepted
without verification and the audit record is marked overridden. -/
theorem processMaterialOrder_unneeded_code_unverified_witness :
    (processMaterialOrder stPlain 0 ["o1"] "u" (some "WRONG_CODE") none =
      processOrdersStep stPlain 0 ["o1"] "u" (some "WRONG_CODE")
        (checkDuplicateOrders stPlain 0 ["o1"])) ∧
    (∀ c', isTruthy (some c') = true →
      processMaterialOrder stPlain 0 ["o1"] "u" (some c') none =
        processMaterialOrder stPlain 0 ["o1"] "u" (some "WRONG_CODE") none) ∧
    (∀ rec ∈ (processMaterialOrder stPlain 0 ["o1"] "u"
        (some "WRONG_CODE") none).2.materialOrderHistory,
      rec ∈ stPlain.materialOrderHistory ∨ rec.wasOverridden = true) :=
  processMaterialOrder_unneeded_code_unverified stPlain 0 ["o1"] "u" "WRONG_CODE" none
    (by decide) (by decide)

/-- C1 counterexample: a successfully processed order gets its status set and
its audit record appended, but no StatusHistoryEntry is produced for the
change — the claim requires one history entry per processed order. -/
theorem processMaterialOrder_no_history_counterexample :
    (processMaterialOrder stPlain 5 ["o1"] "u" none none).1.success = true ∧
    getOrder (processMaterialOrder stPlain 5 ["o1"] "u" none none).2 "o1" =
      some { id := "o1", status := "MATERIALS_ORDERED", notes := "", updatedAt := 5 } ∧
    ((processMaterialOrder stPlain 5 ["o1"] "u" none none).2.materialOrderHistory.filter
      (fun r => r.orderId == "o1")).length = 1 ∧
    (processMaterialOrder stPlain 5 ["o1"] "u" none none).2.statusHistory = [] ∧
    ¬((processMaterialOrder stPlain 5 ["o1"] "u" none none).2.statusHistory.length = 1) := by
  decide

/-- C1 (amended): for every batch that reaches the processing step, each
successfully processed order id has its status set to MATERIALS_ORDERED and
exactly one audit record appended with wasOverridden equal to whether an
override code was used, but no StatusHistoryEntry is produced: the status is
written directly through the store, bypassing the status state machine. -/
theorem processMaterialOrder_success_effects (st : Store) (now : Int)
    (ids : List String) (uid : String) (oc reason : Option String)
    (id : String) (o : Order)
    (h1 : ((checkDuplicateOrders st now ids).requiresOverride && !(isTruthy oc)) = false)
    (h2 : ((checkDuplicateOrders st now ids).requiresOverride && isTruthy oc &&
      !(verifyManagementAuthorization (oc.getD "") uid (reasonOrDefault reason))) = false)
    (hnd : ids.Nodup) (hmem : id ∈ ids)
    (hfail : st.failingIds.contains id = false)
    (ho : getOrder st id = some o) :
    (∃ o', getOrder (processMaterialOrder st now ids uid oc reason).2 id = some o' ∧
      o'.status = "MATERIALS_ORDERED") ∧
    ((processMaterialOrder st now ids uid oc reason).2.materialOrderHistory.filter
        (fun r => r.orderId == id)).length =
      (st.materialOrderHistory.filter (fun r => r.orderId == id)).length + 1 ∧
    (∀ rec ∈ (processMaterialOrder st now ids uid oc reason).2.materialOrderHistory,
      rec ∈ st.materialOrderHistory ∨ rec.wasOverridden = isTruthy oc) ∧
    (processMaterialOrder st now ids uid oc reason).2.statusHistory = st.statusHistory := by
  rw [processMaterialOrder_processes st now ids uid oc reason h1 h2,
    processOrdersStep_spec]
  refine ⟨?_, ?_, ?_, processBatch_statusHistory now uid (isTruthy oc) ids st⟩
  · have hsome : (getOrder st id).isSome = true := by rw [ho]; rfl
    have hsome' : (getOrder (processBatch now uid (isTruthy oc) st ids).1 id).isSome = true :=
      getOrder_isSome_of_ids st _ (processBatch_order_ids now uid (isTruthy oc) ids st) id hsome
    obtain ⟨o', ho'⟩ := Option.isSome_iff_exists.mp hsome'
    refine ⟨o', ho', ?_⟩
    have hmem' : o' ∈ (processBatch now uid (isTruthy oc) st ids).1.orders :=
      List.mem_of_find?_eq_some ho'
    have hido' : o'.id = id := by
      have := List.find?_some ho'
      exact beq_iff_eq.mp this
    exact processBatch_status now uid (isTruthy oc) id ids st hmem hfail o' hmem' hido'
  · rw [processBatch_audit, List.filter_append, List.length_append]
    have hcomp : ((ids.filter (fun i => !(st.failingIds.contains i))).map
          (fun i => mkAudit now i uid (isTruthy oc))).filter (fun r => r.orderId == id) =
        ((ids.filter (fun i => !(st.failingIds.contains i))).filter
          (fun i => i == id)).map (fun i => mkAudit now i uid (isTruthy oc)) :=
      List.filter_map _ _
    rw [hcomp, List.length_map]
    have hlen : ((ids.filter (fun i => !(st.failingIds.contains i))).filter
        (fun i => i == id)).length = 1 := by
      have hnd' : (ids.filter (fun i => !(st.failingIds.contains i))).Nodup :=
        List.Nodup.filter _ hnd
      have hmem2 : id ∈ ids.filter (fun i => !(st.failingIds.contains i)) :=
        List.mem_filter.mpr ⟨hmem, by rw [hfail]; rfl⟩
      have hcount : (ids.filter (fun i => !(st.failingIds.contains i))).count id = 1 :=
        List.count_eq_one_of_mem hnd' hmem2
      rw [← hcount, List.count, List.countP_eq_length_filter]
    rw [hlen]
  · intro rec hrec
    rw [processBatch_audit] at hrec
    rcases List.mem_append.mp hrec with hold | hnew
    · exact Or.inl hold
    · right
      obtain ⟨i, -, rfl⟩ := List.mem_map.mp hnew
      rfl

/-- Witness for C1 (amended) at a concrete one-order batch. -/
theorem processMaterialOrder_success_effects_witness :
    (∃ o', getOrder (processMaterialOrder stPlain 5 ["o1"] "u" none none).2 "o1" = some o' ∧
      o'.status = "MATERIALS_ORDERED") ∧
    ((processMaterialOrder stPlain 5 ["o1"] "u" none none).2.materialOrderHistory.filter
        (fun r => r.orderId == "o1")).length =
      (stPlain.materialOrderHistory.filter (fun r => r.orderId == "o1")).length + 1 ∧
    (∀ rec ∈ (processMaterialOrder stPlain 5 ["o1"] "u" none none).2.materialOrderHistory,
      rec ∈ stPlain.materialOrderHistory ∨ rec.wasOverridden = isTruthy none) ∧
    (processMaterialOrder stPlain 5 ["o1"] "u" none none).2.statusHistory =
      stPlain.statusHistory :=
  processMaterialOrder_success_effects stPlain 5 ["o1"] "u" none none "o1" o1
    (by decide) (by decide) (by decide) (by decide) (by decide) (by decide)
/-- C7 counterexample: no input validation exists.  An empty order id list is
not rejected: the duplicate check runs and its store-dependent result (the
fail-safe on a failing read, the LOW result otherwise) flows into the
returned outcome.  A missing override reason is not rejected either: with a
valid code the batch is processed and an audit record is persisted. -/
theorem processMaterialOrder_no_validation_counterexample :
    (processMaterialOrder stReadFails 0 [] "u" none none).1 =
      { success := false
        message := "MANAGEMENT OVERRIDE REQUIRED: CRITICAL risk detected. Similar orders recently placed."
        requiresOverride := some true
        duplicateCheck := some failSafeCheck } ∧
    (processMaterialOrder stPlain 0 [] "u" none none).1 =
      { success := false
        message := "Successfully ordered materials for 0 orders"
        requiresOverride := none
        duplicateCheck := some
          { isDuplicate := false
            existingOrders := []
            requiresOverride := false
            riskLevel := RiskLevel.LOW } } ∧
    (processMaterialOrder stWithRecent 1 ["o1"] "u"
      (some MANAGEMENT_OVERRIDE_CODE) none).1.success = true ∧
    (processMaterialOrder stWithRecent 1 ["o1"] "u"
      (some MANAGEMENT_OVERRIDE_CODE) none).2.materialOrderHistory.length = 2 := by
  decide

/-- C7 (amended): processMaterialOrder performs no input validation.  The
duplicate check, with its persistence read, runs even for an empty order id
list and its result is embedded in the outcome, and a missing override
reason is silently replaced by the default reason rather than rejected. -/
theorem processMaterialOrder_no_validation (st : Store) (now : Int) (uid : String) :
    ((processMaterialOrder st now [] uid none none).1.duplicateCheck =
      some (checkDuplicateOrders st now [])) ∧
    (∀ (ids : List String) (oc : Option String),
      processMaterialOrder st now ids uid oc none =
        processMaterialOrder st now ids uid oc (some "Material ordering override")) := by
  constructor
  · exact processMaterialOrder_duplicateCheck st now [] uid none none
  · intro ids oc
    rw [processMaterialOrder, processMaterialOrder]
    have hr : reasonOrDefault (none : Option String) =
        reasonOrDefault (some "Material ordering override") := by decide
    rw [hr]
/-! ### Characterisation of the two order-update handlers -/

theorem patchOrderStatusRoute_spec (st : Store) (now : Int) (id s actor : String)
    (o : Order) (ho : getOrder st id = some o)
    (hfail : st.failingIds.contains id = false) :
    patchOrderStatusRoute st now id s actor =
      (.ok, { st with
          orders := st.orders.map (fun x =>
            if x.id == id then { x with status := s, updatedAt := now } else x)
          statusHistory := st.statusHistory ++
            [{ orderId := id, fromStatus := some o.status, toStatus := s,
               changedBy := actor }] }) := by
  simp only [patchOrderStatusRoute, ho, updateOrderWith, hfail, createStatusHistory]
  rfl

theorem patchOrderRoute_spec_write (st : Store) (now : Int) (id s actor : String)
    (o : Order) (ho : getOrder st id = some o)
    (hfail : st.failingIds.contains id = false)
    (hcond : (isTruthy (some s) && !(s == o.status)) = true) :
    patchOrderRoute st now id (some s) actor =
      (.ok, { st with
          orders := st.orders.map (fun x =>
            if x.id == id then { x with status := s, updatedAt := now } else x)
          statusHistory := st.statusHistory ++
            [{ orderId := id, fromStatus := some o.status, toStatus := s,
               changedBy := actor }] }) := by
  simp only [patchOrderRoute, ho, Option.getD_some, hcond, if_pos, updateOrderWith,
    createStatusHistory, hfail]
  rfl

theorem patchOrderRoute_spec_nowrite (st : Store) (now : Int) (id s actor : String)
    (o : Order) (ho : getOrder st id = some o)
    (hfail : st.failingIds.contains id = false)
    (hcond : (isTruthy (some s) && !(s == o.status)) = false) :
    patchOrderRoute st now id (some s) actor =
      (.ok, { st with
          orders := st.orders.map (fun x =>
            if x.id == id then { x with status := s, updatedAt := now } else x) }) := by
  have hmem : id ∉ st.failingIds := by
    intro hm
    have hc : st.failingIds.contains id = true := List.elem_iff.mpr hm
    rw [hc] at hfail
    cases hfail
  simp [patchOrderRoute, ho, hcond, updateOrderWith, hfail, hmem]

theorem getOrder_after_update (st : Store) (id : String) (now : Int) (s : String)
    (sh : List StatusHistoryEntry) :
    getOrder { st with
        orders := st.orders.map (fun x =>
          if x.id == id then { x with status := s, updatedAt := now } else x)
        statusHistory := sh } id
      = (getOrder st id).map (fun x => { x with status := s, updatedAt := now }) :=
  find?_map_update (f := fun x => { x with status := s, updatedAt := now })
    (fun _ => rfl) id st.orders
/-- C6 counterexample: the dedicated status endpoint appends a
StatusHistoryEntry unconditionally.  A call whose target equals the current
status still writes an entry, and two calls in a row with the same target
write two entries in total, not one. -/
theorem patchOrderStatusRoute_counterexample :
    (patchOrderStatusRoute stPlain 0 "o1" "ORDER_PROCESSED" "u").2.statusHistory =
      [{ orderId := "o1", fromStatus := some "ORDER_PROCESSED",
         toStatus := "ORDER_PROCESSED", changedBy := "u" }] ∧
    ((patchOrderStatusRoute
        (patchOrderStatusRoute stPlain 0 "o1" "MATERIALS_ORDERED" "u").2
        0 "o1" "MATERIALS_ORDERED" "u").2.statusHistory.length = 2) ∧
    ¬((patchOrderStatusRoute
        (patchOrderStatusRoute stPlain 0 "o1" "MATERIALS_ORDERED" "u").2
        0 "o1" "MATERIALS_ORDERED" "u").2.statusHistory.length = 1) := by
  decide

/-- C6 (amended): the no-op short-circuit exists only on the general update
endpoint: performing the general update twice in a row with the same target
status writes exactly one StatusHistoryEntry in total, the second call
writing none because the submitted status equals the current one; the
dedicated status endpoint instead appends one entry per call unconditionally,
so the same pair of calls through it writes two entries. -/
theorem statusRoutes_history_semantics (st : Store) (now1 now2 : Int)
    (id s actor : String) (o : Order)
    (ho : getOrder st id = some o) (hfail : st.failingIds.contains id = false)
    (hne : s ≠ o.status) (hs : s ≠ "") :
    ((patchOrderRoute (patchOrderRoute st now1 id (some s) actor).2
        now2 id (some s) actor).2.statusHistory =
      st.statusHistory ++
        [{ orderId := id, fromStatus := some o.status, toStatus := s,
           changedBy := actor }]) ∧
    ((patchOrderStatusRoute (patchOrderStatusRoute st now1 id s actor).2
        now2 id s actor).2.statusHistory =
      st.statusHistory ++
        [{ orderId := id, fromStatus := some o.status, toStatus := s,
           changedBy := actor },
         { orderId := id, fromStatus := some s, toStatus := s,
           changedBy := actor }]) := by
  have hsne : (s == o.status) = false := beq_eq_false_iff_ne.mpr hne
  have hts : isTruthy (some s) = true := by
    rw [isTruthy, beq_eq_false_iff_ne.mpr hs]
    rfl
  have hcond1 : (isTruthy (some s) && !(s == o.status)) = true := by
    rw [hts, hsne]
    rfl
  constructor
  · rw [patchOrderRoute_spec_write st now1 id s actor o ho hfail hcond1]
    have ho2 : getOrder (patchOrderRoute st now1 id (some s) actor).2 id =
        some { o with status := s, updatedAt := now1 } := by
      rw [patchOrderRoute_spec_write st now1 id s actor o ho hfail hcond1]
      rw [getOrder_after_update, ho]
      rfl
    rw [patchOrderRoute_spec_write st now1 id s actor o ho hfail hcond1] at ho2
    have hcond2 : (isTruthy (some s) &&
        !(s == ({ o with status := s, updatedAt := now1 } : Order).status)) = false := by
      rw [hts]
      show (true && !(s == s)) = false
      rw [beq_self_eq_true s]
      rfl
    rw [patchOrderRoute_spec_nowrite _ now2 id s actor
      { o with status := s, updatedAt := now1 } ho2 hfail hcond2]
  · rw [patchOrderStatusRoute_spec st now1 id s actor o ho hfail]
    have ho2 : getOrder ((RouteResult.ok,
        ({ st with
            orders := st.orders.map (fun x =>
              if x.id == id then { x with status := s, updatedAt := now1 } else x)
            statusHistory := st.statusHistory ++
              [{ orderId := id, fromStatus := some o.status, toStatus := s,
                 changedBy := actor }] } : Store)) : RouteResult × Store).2 id =
        some { o with status := s, updatedAt := now1 } := by
      rw [getOrder_after_update, ho]
      rfl
    rw [patchOrderStatusRoute_spec _ now2 id s actor
      { o with status := s, updatedAt := now1 } ho2 hfail]
    show (st.statusHistory ++ [_]) ++ [_] = st.statusHistory ++ [_, _]
    rw [List.append_assoc]
    rfl

/-- Witness for C6 (amended) at a concrete order and target status. -/
theorem statusRoutes_history_semantics_witness :
    ((patchOrderRoute (patchOrderRoute stPlain 0 "o1" (some "MATERIALS_ORDERED") "u").2
        0 "o1" (some "MATERIALS_ORDERED") "u").2.statusHistory =
      stPlain.statusHistory ++
        [{ orderId := "o1", fromStatus := some o1.status,
           toStatus := "MATERIALS_ORDERED", changedBy := "u" }]) ∧
    ((patchOrderStatusRoute (patchOrderStatusRoute stPlain 0 "o1" "MATERIALS_ORDERED" "u").2
        0 "o1" "MATERIALS_ORDERED" "u").2.statusHistory =
      stPlain.statusHistory ++
        [{ orderId := "o1", fromStatus := some o1.status,
           toStatus := "MATERIALS_ORDERED", changedBy := "u" },
         { orderId := "o1", fromStatus := some "MATERIALS_ORDERED",
           toStatus := "MATERIALS_ORDERED", changedBy := "u" }]) :=
  statusRoutes_history_semantics stPlain 0 0 "o1" "MATERIALS_ORDERED" "u" o1
    (by decide) (by decide) (by decide) (by decide)
/-- Order A of the similar-materials scenario: frame code R123 in its notes. -/
def orderA : Order :=
  { id := "A", status := "ORDER_PROCESSED", notes := "Frame: R123", updatedAt := 0 }

/-- Order B of the similar-materials scenario: a different id with the same
frame code R123 in its notes. -/
def orderB : Order :=
  { id := "B", status := "ORDER_PROCESSED", notes := "Frame: R123", updatedAt := 0 }

/-- The store holding both scenario orders and no history. -/
def storeAB : Store :=
  { orders := [orderA, orderB], statusHistory := [], materialOrderHistory := [] }

/-- C5: order A has its materials ordered at T=100 through the service, which
logs the audit record itself; order B, different id but the same frame code
R123 in its notes, is checked at T+1.  Both extracted signatures are the
single pair Roma Moulding R123, yet the audit record the service wrote
stores an orderDetails snapshot with no materials list, so the computed
similarity against it is 0, the similar-materials branch cannot fire, and
the check comes back LOW with no override required — not the HIGH,
override-required result the claim expects. -/
theorem similarMaterials_dead_on_own_records :
    (processMaterialOrder storeAB 100 ["A"] "mgr" none none).1.success = true ∧
    (processMaterialOrder storeAB 100 ["A"] "mgr" none none).2.materialOrderHistory =
      [mkAudit 100 "A" "mgr" false] ∧
    extractMaterialsFromNotes orderB.notes =
      [{ vendor := "Roma Moulding", item := "R123" }] ∧
    calculateMaterialSimilarity (extractMaterialsFromNotes orderB.notes)
      (mkAudit 100 "A" "mgr" false).orderDetails.materials = 0 ∧
    checkDuplicateOrders (processMaterialOrder storeAB 100 ["A"] "mgr" none none).2
        101 ["B"] =
      { isDuplicate := false
        existingOrders := []
        requiresOverride := false
        riskLevel := RiskLevel.LOW } := by
  decide
end OGPOS
